import Mathlib

/-!
Verification of the window-refresher program (src/main.c).

The C source is shallowly embedded: pure computations become Lean functions
over exact arithmetic (C `double` values are modelled as rationals, C
`unsigned int` values as naturals), and the effectful functions
(`ActivateWindowAndEnsureFocus`, `RestoreOriginalFocus`,
`SendCtrlF5Keystroke`, the dispatcher loop body in `main`) become functions
from an explicit environment (the responses of the OS primitives they
consult, in program order) to their result together with a trace of the
observable actions they perform (thread-input attach and detach calls,
SetForegroundWindow calls, ShowWindow restores, SendInput submissions,
waits, log lines and console prints).
-/

namespace Refresher

/-! ## Constants from src/main.c -/

def DEFAULT_MIN_DELAY_S : ℚ := 2
def DEFAULT_MAX_DELAY_S : ℚ := 7
def ALT_KEY_CHECK_DELAY_MS : ℕ := 500
def FOCUS_SWITCH_ATTEMPTS : ℕ := 3
def FOCUS_SWITCH_RETRY_DELAY_MS : ℕ := 100
def FOCUS_SETTLE_DELAY_MS : ℕ := 350
def POST_SENDINPUT_DELAY_MS : ℕ := 100

/-- Value of `UINT_MAX` (32-bit unsigned int). -/
def UINT_MAX : ℕ := 4294967295

/-- Virtual-key code `VK_CONTROL` (0x11). -/
def VK_CONTROL : ℕ := 17
/-- Virtual-key code `VK_MENU` (0x12), the generic Alt key. -/
def VK_MENU : ℕ := 18
/-- Virtual-key code `VK_F5` (0x74). -/
def VK_F5 : ℕ := 116
/-- Virtual-key code `VK_LMENU` (0xA4), the left Alt key. -/
def VK_LMENU : ℕ := 164
/-- Virtual-key code `VK_RMENU` (0xA5), the right Alt key. -/
def VK_RMENU : ℕ := 165

/-! ## GetRandomDelaySeconds (src/main.c lines 659-686)

The CryptGenRandom / rand() acquisition is modelled by the parameter
`random_value`: it is the 32-bit value the source produced (whichever
source succeeded).  Doubles are modelled as rationals; the arithmetic
`min_s + scale * (max_s - min_s)` at the inputs used in the theorems
below is exact in IEEE double as well. -/

def GetRandomDelaySeconds (min_s max_s : ℚ) (random_value : ℕ) : ℚ :=
  if max_s ≤ min_s then
    min_s
  else
    let scale : ℚ := (random_value : ℚ) / (UINT_MAX : ℚ)
    min_s + scale * (max_s - min_s)

/-! ## IsAltKeyHeld (src/main.c lines 702-707)

`keyState vk` models the high bit of `GetAsyncKeyState(vk)`: whether the
key with virtual-key code `vk` is currently held down. -/

def IsAltKeyHeld (keyState : ℕ → Bool) : Bool :=
  keyState VK_MENU || keyState VK_LMENU || keyState VK_RMENU

/-! ## Configuration loading (src/main.c lines 275-380)

A configuration file is modelled as the list of the lines `fgets`
returns, each a list of characters without the length cap (all lines in
the claims are far below `MAX_CONFIG_LINE_LENGTH`). -/

/-- The character class of C `isspace` in the default locale. -/
def isspace (c : Char) : Bool :=
  c = ' ' || c = '\t' || c = '\n' || c = '\x0b' || c = '\x0c' || c = '\r'

/-- Drop leading whitespace characters. -/
def trimLeading : List Char → List Char
  | [] => []
  | c :: cs => if isspace c then trimLeading cs else c :: cs

/-- TrimWhitespace (src/main.c lines 275-286): removes leading and
trailing whitespace. -/
def TrimWhitespace (s : List Char) : List Char :=
  ((trimLeading s).reverse |> trimLeading).reverse

/-- Reads a maximal run of decimal digits, returning the accumulated
value, the number of digits read, and the rest of the input. -/
def parseDigitsAux : ℕ → ℕ → List Char → ℕ × ℕ × List Char
  | acc, cnt, [] => (acc, cnt, [])
  | acc, cnt, c :: cs =>
    if c.isDigit then parseDigitsAux (10 * acc + (c.toNat - 48)) (cnt + 1) cs
    else (acc, cnt, c :: cs)

/-- Exponent tail of `strtod`: optional sign followed by digits. -/
def parseSignedExp (s : List Char) : ℤ :=
  match s with
  | '-' :: r => (fun p => if p.2.1 = 0 then 0 else -(p.1 : ℤ)) (parseDigitsAux 0 0 r)
  | '+' :: r => (fun p => if p.2.1 = 0 then 0 else (p.1 : ℤ)) (parseDigitsAux 0 0 r)
  | r => (fun p => if p.2.1 = 0 then 0 else (p.1 : ℤ)) (parseDigitsAux 0 0 r)

/-- Optional `e`/`E` exponent of `strtod`. -/
def parseExponent (s : List Char) : ℤ :=
  match s with
  | 'e' :: r => parseSignedExp r
  | 'E' :: r => parseSignedExp r
  | _ => 0

/-- The components read by the decimal fragment of C `strtod`: sign,
integer part, fraction part with its digit count, total converted digit
count, and exponent. -/
structure FloatParse where
  negSign : Bool
  intPart : ℕ
  fracPart : ℕ
  fracDigits : ℕ
  totalDigits : ℕ
  ex : ℤ
deriving DecidableEq

/-- Scans a decimal literal: leading whitespace, optional sign, digits
with optional fraction and optional exponent. -/
def parseDouble (s : List Char) : FloatParse :=
  let s1 := s.dropWhile isspace
  let negSign := match s1 with | '-' :: _ => true | _ => false
  let s2 := match s1 with | '-' :: r => r | '+' :: r => r | _ => s1
  let ip := parseDigitsAux 0 0 s2
  let fp := match ip.2.2 with | '.' :: r => parseDigitsAux 0 0 r | _ => (0, 0, ip.2.2)
  ⟨negSign, ip.1, fp.1, fp.2.1, ip.2.1 + fp.2.1, parseExponent fp.2.2⟩

/-- atof: the decimal fragment of C `strtod`, returning 0 when no digit
can be converted.  Hexadecimal, infinity and NaN forms do not occur in
this program and are not modelled. -/
def atof (s : List Char) : ℚ :=
  let p := parseDouble s
  if p.totalDigits = 0 then 0
  else
    (if p.negSign then -1 else 1) *
      ((p.intPart : ℚ) + (p.fracPart : ℚ) / (10 : ℚ) ^ p.fracDigits) *
      (10 : ℚ) ^ p.ex

/-- The key-value parse performed by
`sscanf(line, "%127[^= \t] = %127s", key, value_str)` on a trimmed line:
a nonempty run of characters outside `{=, space, tab}` (capped at 127),
optional whitespace, a literal `=`, optional whitespace, and a nonempty
run of non-whitespace characters (capped at 127).  Returns the key and
value fields when both conversions succeed (`sscanf` result 2). -/
def scanKeyValue (s : List Char) : Option (List Char × List Char) :=
  let key := (s.takeWhile fun c => !(c = '=' || c = ' ' || c = '\t')).take 127
  if key.isEmpty then none
  else
    let r1 := (s.drop key.length).dropWhile isspace
    match r1 with
    | '=' :: r2 =>
      let r3 := r2.dropWhile isspace
      let val := (r3.takeWhile fun c => !isspace c).take 127
      if val.isEmpty then none else some (key, val)
    | _ => none

/-- The two delay globals `g_min_delay_seconds` and `g_max_delay_seconds`. -/
structure Config where
  min_delay : ℚ
  max_delay : ℚ
deriving DecidableEq

/-- The warnings LoadConfiguration can log, tagged with the line number
they report. -/
inductive ConfigWarning
  | invalidMin (lineNum : ℕ)
  | invalidMax (lineNum : ℕ)
  | unknownKey (lineNum : ℕ)
  | unparseableLine (lineNum : ℕ)
  | swapped
deriving DecidableEq

/-- One iteration of the `fgets` loop of LoadConfiguration
(src/main.c lines 334-367): skip blank and comment lines, parse
`key = value`, validate per key against the open interval (0, 3600), and
update the matching field or log a warning. -/
def processLine (cfg : Config) (lineNum : ℕ) (line : List Char) : Config × List ConfigWarning :=
  let t := TrimWhitespace line
  if t = [] ∨ t.head? = some '#' ∨ t.head? = some ';' then (cfg, [])
  else
    match scanKeyValue t with
    | none => (cfg, [.unparseableLine lineNum])
    | some kv =>
      let tk := TrimWhitespace kv.1
      let tv := TrimWhitespace kv.2
      let parsed_val := atof tv
      if tk = "min_delay".toList then
        if 0 < parsed_val ∧ parsed_val < 3600 then
          ({ cfg with min_delay := parsed_val }, [])
        else (cfg, [.invalidMin lineNum])
      else if tk = "max_delay".toList then
        if 0 < parsed_val ∧ parsed_val < 3600 then
          ({ cfg with max_delay := parsed_val }, [])
        else (cfg, [.invalidMax lineNum])
      else (cfg, [.unknownKey lineNum])

/-- The `fgets` loop, threading the configuration and collecting
warnings; `lineNum` counts from 1 as in the source. -/
def loadLines (cfg : Config) (lineNum : ℕ) : List (List Char) → Config × List ConfigWarning
  | [] => (cfg, [])
  | l :: ls =>
    let r1 := processLine cfg lineNum l
    let r2 := loadLines r1.1 (lineNum + 1) ls
    (r2.1, r1.2 ++ r2.2)

/-- LoadConfiguration (src/main.c lines 314-380).  `none` models an
absent config file (defaults kept; the default file is written, an I/O
side effect outside the data model).  After the read loop, if
`min_delay > max_delay` the two are swapped with a warning. -/
def LoadConfiguration (file : Option (List (List Char))) : Config × List ConfigWarning :=
  let init : Config := ⟨DEFAULT_MIN_DELAY_S, DEFAULT_MAX_DELAY_S⟩
  match file with
  | none => (init, [])
  | some lines =>
    let r := loadLines init 1 lines
    if r.1.max_delay < r.1.min_delay then
      (⟨r.1.max_delay, r.1.min_delay⟩, r.2 ++ [.swapped])
    else r

/-! ## Observable actions

Window handles and thread identifiers are modelled as naturals, with 0
standing for `NULL`. -/

/-- Log levels of the logging collaborator. -/
inductive LogLevel
  | debug
  | info
  | warning
  | error
deriving DecidableEq

/-- Press or release, i.e. the `KEYEVENTF_KEYUP` flag of an `INPUT`
keyboard entry. -/
inductive KeyAction
  | down
  | up
deriving DecidableEq

/-- One `INPUT` keyboard entry: virtual-key code plus press/release. -/
structure KeyEvent where
  vk : ℕ
  action : KeyAction
deriving DecidableEq

/-- The four-entry `inputs` array built in SendCtrlF5Keystroke
(src/main.c lines 625-629). -/
def ctrlF5Combo : List KeyEvent :=
  [⟨VK_CONTROL, .down⟩, ⟨VK_F5, .down⟩, ⟨VK_F5, .up⟩, ⟨VK_CONTROL, .up⟩]

/-- The externally observable actions of the program, in program order.
`attachTI tid ok` is an `AttachThreadInput(current, tid, TRUE)` call
together with its result, `detachTI tid` the corresponding
`AttachThreadInput(current, tid, FALSE)` call, `setForeground` a
`SetForegroundWindow` call, `showRestore` a `ShowWindow(_, SW_RESTORE)`
call, and `sendInput` a `SendInput` submission with its event array. -/
inductive Event
  | log (level : LogLevel)
  | print
  | wait (ms : ℕ)
  | attachTI (tid : ℕ) (ok : Bool)
  | detachTI (tid : ℕ)
  | setForeground (h : ℕ)
  | showRestore (h : ℕ)
  | sendInput (events : List KeyEvent)
deriving DecidableEq

/-- Thread identifiers of the successful thread-input joins in a trace,
in order. -/
def succJoins : List Event → List ℕ
  | [] => []
  | .attachTI tid true :: tr => tid :: succJoins tr
  | _ :: tr => succJoins tr

/-- Thread identifiers of the thread-input unjoins in a trace, in order. -/
def unjoins : List Event → List ℕ
  | [] => []
  | .detachTI tid :: tr => tid :: unjoins tr
  | _ :: tr => unjoins tr

/-- The event arrays of the `SendInput` submissions in a trace, in order. -/
def sendInputs : List Event → List (List KeyEvent)
  | [] => []
  | .sendInput evs :: tr => evs :: sendInputs tr
  | _ :: tr => sendInputs tr

/-- The actions of a trace that perturb the shared focus or
thread-input-join state: attach and detach calls and foreground-change
attempts. -/
def focusPerturbations : List Event → List Event
  | [] => []
  | .attachTI tid ok :: tr => .attachTI tid ok :: focusPerturbations tr
  | .detachTI tid :: tr => .detachTI tid :: focusPerturbations tr
  | .setForeground h :: tr => .setForeground h :: focusPerturbations tr
  | _ :: tr => focusPerturbations tr

/-! ## ActivateWindowAndEnsureFocus (src/main.c lines 472-542)

The OS primitives the function consults are collected in `FocusEnv`, in
the order the source consults them: the thread identifiers returned by
`GetCurrentThreadId` and `GetWindowThreadProcessId`, the result of each
`AttachThreadInput` join attempt, whether the target is iconic, the
foreground owner observed after each `SetForegroundWindow` attempt, and
the foreground owner observed after the settle pause. -/

structure FocusEnv where
  curTid : ℕ
  targetTid : ℕ
  origTid : ℕ
  attachOk : ℕ → Bool
  targetIconic : Bool
  fgAfterAttempt : ℕ → ℕ
  fgAfterSettle : ℕ

/-- The bounded `SetForegroundWindow` retry loop
(src/main.c lines 510-521): attempt `i`, with `fuel` attempts remaining
out of `FOCUS_SWITCH_ATTEMPTS`. -/
def tryActivate (fg : ℕ → ℕ) (hWnd : ℕ) : ℕ → ℕ → Bool × List Event
  | _, 0 => (false, [])
  | i, fuel + 1 =>
    if fg i = hWnd then
      (true, [.setForeground hWnd, .wait FOCUS_SWITCH_RETRY_DELAY_MS, .log .debug])
    else
      let r := tryActivate fg hWnd (i + 1) fuel
      (r.1, [.setForeground hWnd, .wait FOCUS_SWITCH_RETRY_DELAY_MS, .log .debug] ++ r.2)

/-- ActivateWindowAndEnsureFocus (src/main.c lines 472-542): returns
whether focus was secured, together with the trace of its actions. -/
def ActivateWindowAndEnsureFocus (env : FocusEnv) (hWndToActivate hOriginalForeground : ℕ) :
    Bool × List Event :=
  if hOriginalForeground = hWndToActivate then
    (true, [.log .debug])
  else
    let attachTarget : Bool × List Event :=
      if env.targetTid ≠ 0 ∧ env.targetTid ≠ env.curTid then
        if env.attachOk env.targetTid then (true, [.attachTI env.targetTid true])
        else (false, [.attachTI env.targetTid false, .log .warning])
      else (false, [])
    let attachOrig : Bool × List Event :=
      if hOriginalForeground ≠ 0 ∧ env.origTid ≠ 0 ∧ env.origTid ≠ env.curTid ∧
          env.origTid ≠ env.targetTid then
        if env.attachOk env.origTid then (true, [.attachTI env.origTid true])
        else (false, [.attachTI env.origTid false, .log .warning])
      else (false, [])
    let iconicTrace : List Event :=
      if env.targetIconic then
        [.log .debug, .showRestore hWndToActivate, .wait FOCUS_SWITCH_RETRY_DELAY_MS]
      else []
    let attempt := tryActivate env.fgAfterAttempt hWndToActivate 0 FOCUS_SWITCH_ATTEMPTS
    let verify : Bool × List Event :=
      if attempt.1 then
        if env.fgAfterSettle = hWndToActivate then
          (true, [.log .debug, .wait FOCUS_SETTLE_DELAY_MS, .log .debug])
        else
          (false, [.log .debug, .wait FOCUS_SETTLE_DELAY_MS, .log .warning])
      else (false, [.log .warning])
    let detachTrace : List Event :=
      (if attachOrig.1 then [.detachTI env.origTid] else []) ++
        (if attachTarget.1 then [.detachTI env.targetTid] else [])
    (verify.1,
      [.log .debug] ++ attachTarget.2 ++ attachOrig.2 ++ iconicTrace ++ attempt.2 ++
        verify.2 ++ detachTrace)

/-! ## RestoreOriginalFocus (src/main.c lines 550-586) -/

/-- The OS responses RestoreOriginalFocus consults, in source order:
whether the original foreground window is still alive, the current
foreground owner, the thread identifiers, the result of the attach call,
whether the original window is iconic, and the foreground owner observed
after the restore attempt. -/
structure RestoreEnv where
  origAlive : Bool
  curFg : ℕ
  curTid : ℕ
  origTid : ℕ
  attachOkRestore : Bool
  origIconic : Bool
  finalFg : ℕ

/-- RestoreOriginalFocus (src/main.c lines 550-586). -/
def RestoreOriginalFocus (env : RestoreEnv) (hOriginalForeground hTargetWindow : ℕ)
    (focusSwitchedSuccessfully : Bool) : List Event :=
  if hOriginalForeground = hTargetWindow ∨ hOriginalForeground = 0 ∨ env.origAlive = false then
    []
  else if focusSwitchedSuccessfully = false then
    [.log .debug]
  else if env.curFg = hTargetWindow ∨ env.curFg ≠ hOriginalForeground then
    let needsAttach := env.origTid ≠ 0 ∧ env.origTid ≠ env.curTid
    [.log .debug, .wait FOCUS_SWITCH_RETRY_DELAY_MS] ++
      (if needsAttach then [.attachTI env.origTid env.attachOkRestore] else []) ++
      (if env.origIconic then [.showRestore hOriginalForeground] else []) ++
      [.setForeground hOriginalForeground] ++
      (if needsAttach then [.detachTI env.origTid] else []) ++
      (if env.finalFg = hOriginalForeground then [.log .debug] else [.log .warning])
  else
    [.log .debug]

/-! ## SendCtrlF5Keystroke (src/main.c lines 595-647)

The C function returns `void`; the embedding additionally returns the
value of `focusSetForInput` as established by the focus-arbitration step
(before the final pre-send iconic re-check), i.e. the SECURED/FAILED
outcome of the acquisition phase, so that session outcomes can be
stated. -/

/-- The OS responses SendCtrlF5Keystroke consults, in source order:
whether the target is alive, the foreground owner at entry, the
responses for the inner ActivateWindowAndEnsureFocus call, whether the
target is iconic just before sending, the foreground owner after the
pre-send restore, the number of events `SendInput` accepts, and the
responses for the RestoreOriginalFocus call. -/
structure SendEnv where
  targetAlive : Bool
  origFg : ℕ
  fenv : FocusEnv
  iconicBeforeSend : Bool
  fgAfterIconicRestore : ℕ
  sendAccepted : ℕ
  renv : RestoreEnv

/-- SendCtrlF5Keystroke (src/main.c lines 595-647). -/
def SendCtrlF5Keystroke (env : SendEnv) (targetHwnd : ℕ) : Bool × List Event :=
  if env.targetAlive = false then
    (false, [.log .warning, .print])
  else
    let hOriginalForeground := env.origFg
    let targetWasAlreadyForeground := hOriginalForeground = targetHwnd
    let acq : Bool × List Event :=
      if targetWasAlreadyForeground then (true, [.log .debug])
      else ActivateWindowAndEnsureFocus env.fenv targetHwnd hOriginalForeground
    let recheck : Bool × List Event :=
      if acq.1 then
        if env.iconicBeforeSend then
          if env.fgAfterIconicRestore ≠ targetHwnd then
            (false, [.log .debug, .showRestore targetHwnd,
              .wait FOCUS_SWITCH_RETRY_DELAY_MS, .log .warning])
          else
            (true, [.log .debug, .showRestore targetHwnd, .wait FOCUS_SWITCH_RETRY_DELAY_MS])
        else (true, [])
      else (false, [])
    let sendTrace : List Event :=
      if acq.1 then
        if recheck.1 then
          [.sendInput ctrlF5Combo] ++
            (if env.sendAccepted ≠ 4 then [.log .error] else [.log .debug])
        else []
      else [.print]
    let restoreTrace : List Event :=
      if targetWasAlreadyForeground then []
      else RestoreOriginalFocus env.renv hOriginalForeground targetHwnd recheck.1
    (acq.1, acq.2 ++ recheck.2 ++ sendTrace ++ restoreTrace)

/-! ## The dispatcher loop body (src/main.c lines 143-176)

One iteration of the `while (TRUE)` loop of `main`.  `aliveAtTop` and
`aliveAfterWait` are the results of the two `IsWindow` liveness checks,
`keyState` the keyboard state consulted by `IsAltKeyHeld` after the
randomized wait, and `randomValue` the value the random source produces
for this cycle. -/

structure CycleEnv where
  aliveAtTop : Bool
  minDelay : ℚ
  maxDelay : ℚ
  randomValue : ℕ
  keyState : ℕ → Bool
  aliveAfterWait : Bool
  senv : SendEnv

/-- How one dispatcher cycle ended: the loop `break`s (target gone), the
cycle is aborted by the held-modifier check and `continue`s, or the
cycle reaches the keystroke-delivery step. -/
inductive CycleOutcome
  | terminated
  | skippedModifier
  | delivered
deriving DecidableEq

/-- One iteration of the main loop (src/main.c lines 143-176). -/
def dispatcherCycle (env : CycleEnv) (target : ℕ) : CycleOutcome × List Event :=
  if env.aliveAtTop = false then
    (.terminated, [.print, .log .warning])
  else
    let wait_duration_s := GetRandomDelaySeconds env.minDelay env.maxDelay env.randomValue
    let waitTrace : List Event :=
      [.print, .log .debug, .wait ⌊wait_duration_s * 1000⌋.toNat]
    if IsAltKeyHeld env.keyState then
      (.skippedModifier, waitTrace ++ [.print, .log .debug, .wait ALT_KEY_CHECK_DELAY_MS])
    else if env.aliveAfterWait = false then
      (.terminated, waitTrace ++ [.print, .log .warning])
    else
      (.delivered,
        waitTrace ++ [.print] ++ (SendCtrlF5Keystroke env.senv target).2 ++
          [.wait POST_SENDINPUT_DELAY_MS])

/-! ## Concrete environments used by counterexamples and witnesses -/

/-- A focus environment whose attach calls succeed and whose foreground
queries all report window 0. -/
def sampleFocusEnv : FocusEnv :=
  { curTid := 1, targetTid := 2, origTid := 3, attachOk := fun _ => true,
    targetIconic := false, fgAfterAttempt := fun _ => 0, fgAfterSettle := 0 }

/-- A restore environment for a live original window on thread 3. -/
def sampleRestoreEnv : RestoreEnv :=
  { origAlive := true, curFg := 0, curTid := 1, origTid := 3,
    attachOkRestore := true, origIconic := false, finalFg := 0 }

/-- A delivery environment in which window 5 is alive, already the
foreground owner, not minimized, and `SendInput` accepts all 4 events. -/
def readySendEnv : SendEnv :=
  { targetAlive := true, origFg := 5, fenv := sampleFocusEnv,
    iconicBeforeSend := false, fgAfterIconicRestore := 0, sendAccepted := 4,
    renv := sampleRestoreEnv }

/-- A cycle in which the user is holding the Control key (the modifier
of the injected combo) but no Alt key, the target window 5 stays alive,
and delivery would succeed. -/
def c1Env : CycleEnv :=
  { aliveAtTop := true, minDelay := 2, maxDelay := 7, randomValue := 0,
    keyState := fun k => k == VK_CONTROL, aliveAfterWait := true, senv := readySendEnv }

/-- A cycle in which the user is holding the Alt key. -/
def c3SkipEnv : CycleEnv :=
  { aliveAtTop := true, minDelay := 2, maxDelay := 7, randomValue := 0,
    keyState := fun k => k == VK_MENU, aliveAfterWait := true, senv := readySendEnv }

/-- The cycle that follows `c3SkipEnv`: no key held, target alive,
delivery succeeds; its random source draws 0, so its sampled delay is
the lower bound 2 seconds. -/
def c3NextEnv : CycleEnv :=
  { aliveAtTop := true, minDelay := 2, maxDelay := 7, randomValue := 0,
    keyState := fun _ => false, aliveAfterWait := true, senv := readySendEnv }

/-- A delivery environment for target 5 in which activation succeeds on
the first attempt (foreground observed as 5) but the post-settle
re-check observes window 4 as foreground. -/
def c5Env : SendEnv :=
  { targetAlive := true, origFg := 4,
    fenv := { curTid := 1, targetTid := 2, origTid := 3, attachOk := fun _ => true,
              targetIconic := false, fgAfterAttempt := fun _ => 5, fgAfterSettle := 4 },
    iconicBeforeSend := false, fgAfterIconicRestore := 0, sendAccepted := 4,
    renv := sampleRestoreEnv }

/-- A delivery environment in which window 5 is already foreground but
`SendInput` accepts only 3 of the 4 events. -/
def c6Env : SendEnv :=
  { targetAlive := true, origFg := 5, fenv := sampleFocusEnv,
    iconicBeforeSend := false, fgAfterIconicRestore := 0, sendAccepted := 3,
    renv := sampleRestoreEnv }

/-- A delivery environment whose target window is no longer alive. -/
def c10Env : SendEnv :=
  { targetAlive := false, origFg := 0, fenv := sampleFocusEnv,
    iconicBeforeSend := false, fgAfterIconicRestore := 0, sendAccepted := 0,
    renv := sampleRestoreEnv }

/-! ## Helper lemmas: configuration -/

/-- The documented range discipline for the two delay globals. -/
def goodBounds (cfg : Config) : Prop :=
  0 < cfg.min_delay ∧ cfg.min_delay < 3600 ∧ 0 < cfg.max_delay ∧ cfg.max_delay < 3600

lemma processLine_goodBounds (cfg : Config) (n : ℕ) (line : List Char)
    (h : goodBounds cfg) : goodBounds (processLine cfg n line).1 := by
  unfold goodBounds at *
  simp only [processLine]
  split
  · exact h
  split
  · exact h
  split
  · split
    · next hv => exact ⟨hv.1, hv.2, h.2.2.1, h.2.2.2⟩
    · exact h
  split
  · split
    · next hv => exact ⟨h.1, h.2.1, hv.1, hv.2⟩
    · exact h
  · exact h

lemma loadLines_goodBounds (lines : List (List Char)) :
    ∀ cfg n, goodBounds cfg → goodBounds (loadLines cfg n lines).1 := by
  induction lines with
  | nil => intro cfg n h; exact h
  | cons l ls ih =>
    intro cfg n h
    simp only [loadLines]
    exact ih _ _ (processLine_goodBounds _ _ _ h)

lemma atof10 : atof (TrimWhitespace "10".toList) = 10 := by
  have h : parseDouble (TrimWhitespace "10".toList) = ⟨false, 10, 0, 0, 2, 0⟩ := by decide
  rw [atof, h]; norm_num

lemma atof5 : atof (TrimWhitespace "5".toList) = 5 := by
  have h : parseDouble (TrimWhitespace "5".toList) = ⟨false, 5, 0, 0, 1, 0⟩ := by decide
  rw [atof, h]; norm_num

lemma atof9999 : atof (TrimWhitespace "9999".toList) = 9999 := by
  have h : parseDouble (TrimWhitespace "9999".toList) = ⟨false, 9999, 0, 0, 4, 0⟩ := by decide
  rw [atof, h]; norm_num

lemma atofAbc : atof (TrimWhitespace "abc".toList) = 0 := by
  have h : parseDouble (TrimWhitespace "abc".toList) = ⟨false, 0, 0, 0, 0, 0⟩ := by decide
  rw [atof, h]; norm_num

/-- Every line either leaves the configuration unchanged or produces no
warning: a rejected value never updates either key. -/
lemma processLine_retain_or_silent (cfg : Config) (n : ℕ) (line : List Char) :
    (processLine cfg n line).1 = cfg ∨ (processLine cfg n line).2 = [] := by
  simp only [processLine]
  split
  · left; rfl
  split
  · left; rfl
  split
  · split
    · right; rfl
    · left; rfl
  split
  · split
    · right; rfl
    · left; rfl
  · left; rfl

lemma processLine_min10 (cfg : Config) (n : ℕ) :
    processLine cfg n ("min_delay = 10".toList) = ({ cfg with min_delay := 10 }, []) := by
  rw [processLine, if_neg (by decide),
    show scanKeyValue (TrimWhitespace ("min_delay = 10".toList))
      = some ("min_delay".toList, "10".toList) by decide]
  simp only [atof10]
  rw [if_pos (by decide), if_pos (by norm_num)]

lemma processLine_max5 (cfg : Config) (n : ℕ) :
    processLine cfg n ("max_delay = 5".toList) = ({ cfg with max_delay := 5 }, []) := by
  rw [processLine, if_neg (by decide),
    show scanKeyValue (TrimWhitespace ("max_delay = 5".toList))
      = some ("max_delay".toList, "5".toList) by decide]
  simp only [atof5]
  rw [if_neg (by decide), if_pos (by decide), if_pos (by norm_num)]

lemma processLine_min9999 (cfg : Config) (n : ℕ) :
    processLine cfg n ("min_delay = 9999".toList) = (cfg, [.invalidMin n]) := by
  rw [processLine, if_neg (by decide),
    show scanKeyValue (TrimWhitespace ("min_delay = 9999".toList))
      = some ("min_delay".toList, "9999".toList) by decide]
  simp only [atof9999]
  rw [if_pos (by decide), if_neg (by norm_num)]

lemma processLine_minAbc (cfg : Config) (n : ℕ) :
    processLine cfg n ("min_delay = abc".toList) = (cfg, [.invalidMin n]) := by
  rw [processLine, if_neg (by decide),
    show scanKeyValue (TrimWhitespace ("min_delay = abc".toList))
      = some ("min_delay".toList, "abc".toList) by decide]
  simp only [atofAbc]
  rw [if_pos (by decide), if_neg (by norm_num)]

/-! ## Helper lemmas: traces -/

lemma succJoins_append (l1 l2 : List Event) :
    succJoins (l1 ++ l2) = succJoins l1 ++ succJoins l2 := by
  induction l1 with
  | nil => rfl
  | cons e tr ih =>
    cases e with
    | attachTI tid ok => cases ok <;> simp [succJoins, ih]
    | log lv => simp [succJoins, ih]
    | print => simp [succJoins, ih]
    | wait ms => simp [succJoins, ih]
    | detachTI tid => simp [succJoins, ih]
    | setForeground h => simp [succJoins, ih]
    | showRestore h => simp [succJoins, ih]
    | sendInput evs => simp [succJoins, ih]

lemma unjoins_append (l1 l2 : List Event) :
    unjoins (l1 ++ l2) = unjoins l1 ++ unjoins l2 := by
  induction l1 with
  | nil => rfl
  | cons e tr ih =>
    cases e with
    | attachTI tid ok => cases ok <;> simp [unjoins, ih]
    | log lv => simp [unjoins, ih]
    | print => simp [unjoins, ih]
    | wait ms => simp [unjoins, ih]
    | detachTI tid => simp [unjoins, ih]
    | setForeground h => simp [unjoins, ih]
    | showRestore h => simp [unjoins, ih]
    | sendInput evs => simp [unjoins, ih]

lemma sendInputs_append (l1 l2 : List Event) :
    sendInputs (l1 ++ l2) = sendInputs l1 ++ sendInputs l2 := by
  induction l1 with
  | nil => rfl
  | cons e tr ih =>
    cases e with
    | attachTI tid ok => cases ok <;> simp [sendInputs, ih]
    | log lv => simp [sendInputs, ih]
    | print => simp [sendInputs, ih]
    | wait ms => simp [sendInputs, ih]
    | detachTI tid => simp [sendInputs, ih]
    | setForeground h => simp [sendInputs, ih]
    | showRestore h => simp [sendInputs, ih]
    | sendInput evs => simp [sendInputs, ih]

lemma focusPerturbations_append (l1 l2 : List Event) :
    focusPerturbations (l1 ++ l2) = focusPerturbations l1 ++ focusPerturbations l2 := by
  induction l1 with
  | nil => rfl
  | cons e tr ih =>
    cases e with
    | attachTI tid ok => cases ok <;> simp [focusPerturbations, ih]
    | log lv => simp [focusPerturbations, ih]
    | print => simp [focusPerturbations, ih]
    | wait ms => simp [focusPerturbations, ih]
    | detachTI tid => simp [focusPerturbations, ih]
    | setForeground h => simp [focusPerturbations, ih]
    | showRestore h => simp [focusPerturbations, ih]
    | sendInput evs => simp [focusPerturbations, ih]

lemma tryActivate_succJoins (fg : ℕ → ℕ) (h : ℕ) :
    ∀ i fuel, succJoins (tryActivate fg h i fuel).2 = [] := by
  intro i fuel
  induction fuel generalizing i with
  | zero => rfl
  | succ n ih =>
    rw [tryActivate]
    split
    · rfl
    · simp [succJoins_append, succJoins, ih]

lemma tryActivate_unjoins (fg : ℕ → ℕ) (h : ℕ) :
    ∀ i fuel, unjoins (tryActivate fg h i fuel).2 = [] := by
  intro i fuel
  induction fuel generalizing i with
  | zero => rfl
  | succ n ih =>
    rw [tryActivate]
    split
    · rfl
    · simp [unjoins_append, unjoins, ih]

lemma tryActivate_sendInputs (fg : ℕ → ℕ) (h : ℕ) :
    ∀ i fuel, sendInputs (tryActivate fg h i fuel).2 = [] := by
  intro i fuel
  induction fuel generalizing i with
  | zero => rfl
  | succ n ih =>
    rw [tryActivate]
    split
    · rfl
    · simp [sendInputs_append, sendInputs, ih]

lemma tryActivate_success (fg : ℕ → ℕ) (h : ℕ) :
    ∀ i fuel, (∃ j, j < fuel ∧ fg (i + j) = h) → (tryActivate fg h i fuel).1 = true := by
  intro i fuel
  induction fuel generalizing i with
  | zero => rintro ⟨j, hj, _⟩; omega
  | succ n ih =>
    rintro ⟨j, hj, hfg⟩
    rw [tryActivate]
    split
    · rfl
    · next hne =>
      dsimp only
      apply ih
      cases j with
      | zero => exact absurd (by simpa using hfg) hne
      | succ j => exact ⟨j, by omega, by rw [show i + 1 + j = i + (j + 1) by omega]; exact hfg⟩

lemma activate_sendInputs (env : FocusEnv) (hT hO : ℕ) :
    sendInputs (ActivateWindowAndEnsureFocus env hT hO).2 = [] := by
  by_cases h0 : hO = hT
  · simp [ActivateWindowAndEnsureFocus, h0, sendInputs]
  · by_cases c1 : env.targetTid ≠ 0 ∧ env.targetTid ≠ env.curTid <;>
    by_cases c2 : hO ≠ 0 ∧ env.origTid ≠ 0 ∧ env.origTid ≠ env.curTid ∧
      env.origTid ≠ env.targetTid <;>
    by_cases o1 : env.attachOk env.targetTid <;>
    by_cases o2 : env.attachOk env.origTid <;>
    by_cases ic : env.targetIconic <;>
    by_cases ta : (tryActivate env.fgAfterAttempt hT 0 FOCUS_SWITCH_ATTEMPTS).1 = true <;>
    by_cases st : env.fgAfterSettle = hT <;>
    simp [ActivateWindowAndEnsureFocus, h0, c1, c2, o1, o2, ic, ta, st, sendInputs,
      sendInputs_append, tryActivate_sendInputs]

lemma activate_fst (env : FocusEnv) (hT hO : ℕ) (h : hO ≠ hT) :
    (ActivateWindowAndEnsureFocus env hT hO).1
      = ((tryActivate env.fgAfterAttempt hT 0 FOCUS_SWITCH_ATTEMPTS).1
          && decide (env.fgAfterSettle = hT)) := by
  rw [ActivateWindowAndEnsureFocus, if_neg h]
  by_cases ta : (tryActivate env.fgAfterAttempt hT 0 FOCUS_SWITCH_ATTEMPTS).1 = true <;>
  by_cases st : env.fgAfterSettle = hT <;>
  simp [ta, st]

lemma restore_sendInputs (env : RestoreEnv) (hO hT : ℕ) (ok : Bool) :
    sendInputs (RestoreOriginalFocus env hO hT ok) = [] := by
  rw [RestoreOriginalFocus]
  split
  · rfl
  split
  · rfl
  split
  · by_cases na : env.origTid ≠ 0 ∧ env.origTid ≠ env.curTid <;>
    by_cases oi : env.origIconic <;>
    by_cases ff : env.finalFg = hO <;>
    simp [na, oi, ff, sendInputs, sendInputs_append]
  · rfl

/-! ## Claim theorems: focus arbitration and injection -/

/-- C4: in every focus-acquisition session, the thread-input unjoins
issued by ActivateWindowAndEnsureFocus are exactly the successful joins
in reverse order of establishment, on every exit path (whatever the
session outcome): one detach per successful join, none for a failed
join. -/
theorem c4_joins_balanced_reverse (env : FocusEnv) (hT hO : ℕ) :
    unjoins (ActivateWindowAndEnsureFocus env hT hO).2
      = (succJoins (ActivateWindowAndEnsureFocus env hT hO).2).reverse := by
  by_cases h0 : hO = hT
  · simp [ActivateWindowAndEnsureFocus, h0, succJoins, unjoins]
  · by_cases c1 : env.targetTid ≠ 0 ∧ env.targetTid ≠ env.curTid <;>
    by_cases c2 : hO ≠ 0 ∧ env.origTid ≠ 0 ∧ env.origTid ≠ env.curTid ∧
      env.origTid ≠ env.targetTid <;>
    by_cases o1 : env.attachOk env.targetTid <;>
    by_cases o2 : env.attachOk env.origTid <;>
    by_cases ic : env.targetIconic <;>
    by_cases ta : (tryActivate env.fgAfterAttempt hT 0 FOCUS_SWITCH_ATTEMPTS).1 = true <;>
    by_cases st : env.fgAfterSettle = hT <;>
    simp [ActivateWindowAndEnsureFocus, h0, c1, c2, o1, o2, ic, ta, st, succJoins, unjoins,
      succJoins_append, unjoins_append, tryActivate_succJoins, tryActivate_unjoins]

/-- C5: when an activation attempt initially succeeds (some retry
observes the target as foreground) but the re-check after the settle
delay finds the target no longer foreground, the session outcome is
FAILED (ActivateWindowAndEnsureFocus returns false) and no SendInput
submission happens in that cycle. -/
theorem c5_settle_recheck_blocks_injection (env : SendEnv) (target : ℕ)
    (halive : env.targetAlive = true)
    (hneq : env.origFg ≠ target)
    (hatt : ∃ i, i < FOCUS_SWITCH_ATTEMPTS ∧ env.fenv.fgAfterAttempt i = target)
    (hset : env.fenv.fgAfterSettle ≠ target) :
    (ActivateWindowAndEnsureFocus env.fenv target env.origFg).1 = false ∧
    sendInputs (SendCtrlF5Keystroke env target).2 = [] := by
  have htry : (tryActivate env.fenv.fgAfterAttempt target 0 FOCUS_SWITCH_ATTEMPTS).1 = true :=
    tryActivate_success _ _ 0 _ (by simpa using hatt)
  have hfst : (ActivateWindowAndEnsureFocus env.fenv target env.origFg).1 = false := by
    rw [activate_fst env.fenv target env.origFg hneq, htry]
    simp [hset]
  refine ⟨hfst, ?_⟩
  simp [SendCtrlF5Keystroke, halive, hneq, hfst, sendInputs, sendInputs_append,
    activate_sendInputs, restore_sendInputs]

/-- Witness for C5 at the concrete environment `c5Env` (activation
succeeds on the first attempt, the settle re-check sees window 4). -/
theorem c5_settle_recheck_blocks_injection_witness :
    (ActivateWindowAndEnsureFocus c5Env.fenv 5 c5Env.origFg).1 = false ∧
    sendInputs (SendCtrlF5Keystroke c5Env 5).2 = [] :=
  c5_settle_recheck_blocks_injection c5Env 5 rfl (by decide) ⟨0, by decide, rfl⟩ (by decide)

/-- C6: every cycle submits at most one SendInput call, always carrying
the full ordered four-event sequence Ctrl-down, F5-down, F5-up, Ctrl-up;
and when the OS accepts fewer than 4 events of a submission, an error is
logged and no further submission happens in the cycle. -/
theorem c6_single_submission_full_combo (env : SendEnv) (target : ℕ) :
    (sendInputs (SendCtrlF5Keystroke env target).2 = [] ∨
      sendInputs (SendCtrlF5Keystroke env target).2 = [ctrlF5Combo]) ∧
    (env.sendAccepted ≠ 4 → sendInputs (SendCtrlF5Keystroke env target).2 ≠ [] →
      Event.log .error ∈ (SendCtrlF5Keystroke env target).2) := by
  by_cases ha : env.targetAlive = false
  · simp [SendCtrlF5Keystroke, ha, sendInputs]
  · by_cases heq : env.origFg = target <;>
    by_cases hacq : (ActivateWindowAndEnsureFocus env.fenv target env.origFg).1 = true <;>
    by_cases hic : env.iconicBeforeSend = true <;>
    by_cases hfg : env.fgAfterIconicRestore = target <;>
    by_cases hacc : env.sendAccepted = 4 <;>
    simp [SendCtrlF5Keystroke, ha, heq, hacq, hic, hfg, hacc, sendInputs, sendInputs_append,
      activate_sendInputs, restore_sendInputs]

/-- Witness for C6 at `c6Env`, where the submission happens and the OS
accepts only 3 events: the single submission carries the full combo and
an error is logged. -/
theorem c6_single_submission_full_combo_witness :
    (sendInputs (SendCtrlF5Keystroke c6Env 5).2 = [] ∨
      sendInputs (SendCtrlF5Keystroke c6Env 5).2 = [ctrlF5Combo]) ∧
    Event.log .error ∈ (SendCtrlF5Keystroke c6Env 5).2 :=
  ⟨(c6_single_submission_full_combo c6Env 5).1,
    (c6_single_submission_full_combo c6Env 5).2 (by decide) (by decide)⟩

/-- C7: when the target window already equals the foreground owner at
session start, the session outcome is SECURED (acquisition succeeds)
without any thread-input attach or detach and without any
SetForegroundWindow attempt, and no focus-restore action is performed at
the end of the cycle: the trace contains no focus-perturbing action at
all. -/
theorem c7_already_foreground_short_circuit (env : SendEnv) (target : ℕ)
    (halive : env.targetAlive = true)
    (heq : env.origFg = target) :
    (SendCtrlF5Keystroke env target).1 = true ∧
    focusPerturbations (SendCtrlF5Keystroke env target).2 = [] := by
  by_cases hic : env.iconicBeforeSend = true <;>
  by_cases hfg : env.fgAfterIconicRestore = target <;>
  by_cases hacc : env.sendAccepted = 4 <;>
  simp [SendCtrlF5Keystroke, halive, heq, hic, hfg, hacc, focusPerturbations,
    focusPerturbations_append]

/-- Witness for C7 at `readySendEnv` (window 5 already foreground). -/
theorem c7_already_foreground_short_circuit_witness :
    (SendCtrlF5Keystroke readySendEnv 5).1 = true ∧
    focusPerturbations (SendCtrlF5Keystroke readySendEnv 5).2 = [] :=
  c7_already_foreground_short_circuit readySendEnv 5 rfl rfl

/-- C10: when the target handle no longer identifies a live window,
SendCtrlF5Keystroke returns immediately after a warning log and a
console message: its whole trace is that log and print, so no key event
is injected, no thread-input join is made, and no foreground or restore
change is attempted. -/
theorem c10_dead_target_no_side_effects (env : SendEnv) (target : ℕ)
    (h : env.targetAlive = false) :
    SendCtrlF5Keystroke env target = (false, [.log .warning, .print]) := by
  rw [SendCtrlF5Keystroke, if_pos h]

/-- Witness for C10 at `c10Env` (dead target). -/
theorem c10_dead_target_no_side_effects_witness :
    SendCtrlF5Keystroke c10Env 5 = (false, [.log .warning, .print]) :=
  c10_dead_target_no_side_effects c10Env 5 rfl

/-! ## Claim theorems: dispatcher loop -/

/-- C1 counterexample: in the concrete cycle `c1Env` the user is holding
the Control key, the control-class modifier of the injected Ctrl+F5
combo, and no Alt key; yet the cycle is not aborted: it reaches delivery
and performs exactly one keystroke injection, because the post-wait
modifier check tests only the Alt keys. -/
theorem c1_ctrl_held_still_injects :
    c1Env.keyState VK_CONTROL = true ∧
    IsAltKeyHeld c1Env.keyState = false ∧
    (dispatcherCycle c1Env 5).1 = .delivered ∧
    sendInputs (dispatcherCycle c1Env 5).2 = [ctrlF5Combo] := by
  refine ⟨rfl, rfl, ?_, ?_⟩
  · simp [dispatcherCycle, c1Env, IsAltKeyHeld, readySendEnv, VK_MENU, VK_LMENU, VK_RMENU,
      VK_CONTROL]
  · simp [dispatcherCycle, c1Env, IsAltKeyHeld, readySendEnv, VK_MENU, VK_LMENU, VK_RMENU,
      VK_CONTROL, SendCtrlF5Keystroke, sendInputs, sendInputs_append]

/-- C1 (amended): the modifier the dispatcher checks after the wait is
the Alt key family (VK_MENU, VK_LMENU, VK_RMENU), not the control-class
modifier of the combo: whenever an Alt key is held at the post-wait
check point, the cycle performs no keystroke injection and restarts
after the short fixed penalty wait `ALT_KEY_CHECK_DELAY_MS`; its whole
trace is the status output, the randomized wait, and the penalty wait. -/
theorem c1_alt_held_defers_injection (env : CycleEnv) (target : ℕ)
    (halive : env.aliveAtTop = true)
    (halt : IsAltKeyHeld env.keyState = true) :
    (dispatcherCycle env target).1 = .skippedModifier ∧
    (dispatcherCycle env target).2
      = [.print, .log .debug,
         .wait ⌊GetRandomDelaySeconds env.minDelay env.maxDelay env.randomValue * 1000⌋.toNat,
         .print, .log .debug, .wait ALT_KEY_CHECK_DELAY_MS] := by
  constructor <;> simp [dispatcherCycle, halive, halt]

/-- Witness for the amended C1 at `c3SkipEnv` (Alt held). -/
theorem c1_alt_held_defers_injection_witness :
    (dispatcherCycle c3SkipEnv 5).1 = .skippedModifier ∧
    (dispatcherCycle c3SkipEnv 5).2
      = [.print, .log .debug,
         .wait ⌊GetRandomDelaySeconds c3SkipEnv.minDelay c3SkipEnv.maxDelay
            c3SkipEnv.randomValue * 1000⌋.toNat,
         .print, .log .debug, .wait ALT_KEY_CHECK_DELAY_MS] :=
  c1_alt_held_defers_injection c3SkipEnv 5 rfl rfl

/-- C3 counterexample: the held-modifier cycle `c3SkipEnv` aborts with
only the 500 ms penalty wait after the detection, but the next cycle
`c3NextEnv` (same bounds, drawn value 0) re-samples and waits a full
fresh 2000 ms interval before its injection: the delay before the next
injection attempt is the penalty plus a full random interval, not only
the penalty. -/
theorem c3_fresh_interval_counterexample :
    GetRandomDelaySeconds 2 7 0 = 2 ∧
    (dispatcherCycle c3SkipEnv 5).1 = .skippedModifier ∧
    (dispatcherCycle c3SkipEnv 5).2
      = [.print, .log .debug, .wait 2000, .print, .log .debug,
         .wait ALT_KEY_CHECK_DELAY_MS] ∧
    (dispatcherCycle c3NextEnv 5).1 = .delivered ∧
    (dispatcherCycle c3NextEnv 5).2
      = [.print, .log .debug, .wait 2000, .print, .log .debug, .sendInput ctrlF5Combo,
         .log .debug, .wait POST_SENDINPUT_DELAY_MS] := by
  have hd : GetRandomDelaySeconds (2 : ℚ) 7 0 = 2 := by
    norm_num [GetRandomDelaySeconds, UINT_MAX]
  have hfl : (⌊(2 : ℚ) * 1000⌋).toNat = 2000 := by
    rw [show ((2 : ℚ) * 1000) = ((2000 : ℤ) : ℚ) by norm_num, Int.floor_intCast]
    rfl
  refine ⟨hd, ?_, ?_, ?_, ?_⟩
  · simp [dispatcherCycle, c3SkipEnv, IsAltKeyHeld, VK_MENU, VK_LMENU, VK_RMENU]
  · simp [dispatcherCycle, c3SkipEnv, IsAltKeyHeld, VK_MENU, VK_LMENU, VK_RMENU, hd, hfl]
  · simp [dispatcherCycle, c3NextEnv, IsAltKeyHeld]
  · simp [dispatcherCycle, c3NextEnv, IsAltKeyHeld, hd, hfl, SendCtrlF5Keystroke,
      readySendEnv]

/-- C3 (amended): when the held modifier is detected after the
randomized wait, the aborted cycle adds only the short fixed penalty
wait (the already-consumed scheduled delay is not waited a second time
and nothing is injected), but the restarted loop re-samples: every cycle
that reaches delivery first waits out a full freshly sampled random
interval, so the delay before the next injection attempt is the penalty
plus a fresh full interval. -/
theorem c3_penalty_then_resample (env env2 : CycleEnv) (target t2 : ℕ)
    (halive : env.aliveAtTop = true)
    (halt : IsAltKeyHeld env.keyState = true)
    (hdel : (dispatcherCycle env2 t2).1 = .delivered) :
    (dispatcherCycle env target).2
      = [.print, .log .debug,
         .wait ⌊GetRandomDelaySeconds env.minDelay env.maxDelay env.randomValue * 1000⌋.toNat,
         .print, .log .debug, .wait ALT_KEY_CHECK_DELAY_MS] ∧
    (dispatcherCycle env2 t2).2.take 3
      = [.print, .log .debug,
         .wait ⌊GetRandomDelaySeconds env2.minDelay env2.maxDelay
            env2.randomValue * 1000⌋.toNat] := by
  refine ⟨by simp [dispatcherCycle, halive, halt], ?_⟩
  by_cases a2 : env2.aliveAtTop = false
  · simp [dispatcherCycle, a2] at hdel
  · by_cases alt2 : IsAltKeyHeld env2.keyState = true
    · simp [dispatcherCycle, a2, alt2] at hdel
    · by_cases w2 : env2.aliveAfterWait = false
      · simp [dispatcherCycle, a2, alt2, w2] at hdel
      · simp [dispatcherCycle, a2, alt2, w2, List.take]

/-- Witness for the amended C3 at the concrete cycles `c3SkipEnv`
(Alt held) and `c3NextEnv` (delivering). -/
theorem c3_penalty_then_resample_witness :
    (dispatcherCycle c3SkipEnv 5).2
      = [.print, .log .debug,
         .wait ⌊GetRandomDelaySeconds c3SkipEnv.minDelay c3SkipEnv.maxDelay
            c3SkipEnv.randomValue * 1000⌋.toNat,
         .print, .log .debug, .wait ALT_KEY_CHECK_DELAY_MS] ∧
    (dispatcherCycle c3NextEnv 5).2.take 3
      = [.print, .log .debug,
         .wait ⌊GetRandomDelaySeconds c3NextEnv.minDelay c3NextEnv.maxDelay
            c3NextEnv.randomValue * 1000⌋.toNat] :=
  c3_penalty_then_resample c3SkipEnv c3NextEnv 5 5 rfl rfl
    (by simp [dispatcherCycle, c3NextEnv, IsAltKeyHeld])

/-! ## Claim theorems: RandomInterval and configuration -/

/-- C2 counterexample: with delay bounds 2 and 7 (which satisfy
0 < min < max < 3600), the drawn 32-bit value `UINT_MAX` makes
`GetRandomDelaySeconds` return exactly `max`, so the result is not
strictly less than `max` for every possible drawn value: the scalar
`random_value / UINT_MAX` ranges over [0, 1] inclusive. -/
theorem c2_max_attained_counterexample :
    ((0 : ℚ) < 2 ∧ (2 : ℚ) < 7 ∧ (7 : ℚ) < 3600) ∧
    GetRandomDelaySeconds 2 7 UINT_MAX = 7 ∧
    7 ≤ GetRandomDelaySeconds 2 7 UINT_MAX := by
  norm_num [GetRandomDelaySeconds, UINT_MAX]

/-- C2 (amended): for delay bounds with 0 < min < max < 3600,
`GetRandomDelaySeconds` returns a value in the closed interval
[min, max] for every possible value drawn from the random source, and
the value is strictly below max whenever the drawn value is below
`UINT_MAX`. -/
theorem c2_sample_in_closed_interval (min_s max_s : ℚ) (rv : ℕ)
    (h1 : 0 < min_s) (h2 : min_s < max_s) (h3 : max_s < 3600) (h4 : rv ≤ UINT_MAX) :
    min_s ≤ GetRandomDelaySeconds min_s max_s rv ∧
    GetRandomDelaySeconds min_s max_s rv ≤ max_s ∧
    (rv < UINT_MAX → GetRandomDelaySeconds min_s max_s rv < max_s) := by
  rw [GetRandomDelaySeconds, if_neg (not_le.mpr h2)]
  have hU : (0 : ℚ) < (UINT_MAX : ℚ) := by norm_num [UINT_MAX]
  have hs0 : 0 ≤ (rv : ℚ) / (UINT_MAX : ℚ) := div_nonneg (by positivity) hU.le
  have hs1 : (rv : ℚ) / (UINT_MAX : ℚ) ≤ 1 := by
    rw [div_le_one hU]; exact_mod_cast h4
  have hd : 0 < max_s - min_s := sub_pos.mpr h2
  refine ⟨by nlinarith, by nlinarith, fun h5 => ?_⟩
  have hs2 : (rv : ℚ) / (UINT_MAX : ℚ) < 1 := by
    rw [div_lt_one hU]; exact_mod_cast h5
  nlinarith

/-- Witness for the amended C2 at bounds (2, 7) and drawn value 0. -/
theorem c2_sample_in_closed_interval_witness :
    2 ≤ GetRandomDelaySeconds 2 7 0 ∧ GetRandomDelaySeconds 2 7 0 ≤ 7 ∧
    (0 < UINT_MAX → GetRandomDelaySeconds 2 7 0 < 7) :=
  c2_sample_in_closed_interval 2 7 0 (by norm_num) (by norm_num) (by norm_num)
    (by norm_num [UINT_MAX])

/-- C8: after LoadConfiguration the effective bounds always satisfy
min ≤ max and both lie strictly inside (0, 3600); and the config file
`min_delay = 10`, `max_delay = 5` yields the swapped effective bounds
(5, 10) with the swap warning logged. -/
theorem c8_bounds_invariant_and_swap :
    (∀ file : Option (List (List Char)),
      (LoadConfiguration file).1.min_delay ≤ (LoadConfiguration file).1.max_delay ∧
      0 < (LoadConfiguration file).1.min_delay ∧
      (LoadConfiguration file).1.min_delay < 3600 ∧
      0 < (LoadConfiguration file).1.max_delay ∧
      (LoadConfiguration file).1.max_delay < 3600) ∧
    LoadConfiguration (some ["min_delay = 10".toList, "max_delay = 5".toList])
      = (⟨5, 10⟩, [.swapped]) := by
  constructor
  · intro file
    match file with
    | none =>
      refine ⟨?_, ?_, ?_, ?_, ?_⟩ <;>
        norm_num [LoadConfiguration, DEFAULT_MIN_DELAY_S, DEFAULT_MAX_DELAY_S]
    | some lines =>
      have hg : goodBounds (loadLines ⟨DEFAULT_MIN_DELAY_S, DEFAULT_MAX_DELAY_S⟩ 1 lines).1 :=
        loadLines_goodBounds lines _ 1
          (by norm_num [goodBounds, DEFAULT_MIN_DELAY_S, DEFAULT_MAX_DELAY_S])
      obtain ⟨g1, g2, g3, g4⟩ := hg
      simp only [LoadConfiguration]
      split
      · next hlt => exact ⟨le_of_lt hlt, g3, g4, g1, g2⟩
      · next hnlt => exact ⟨le_of_not_lt hnlt, g1, g2, g3, g4⟩
  · rw [LoadConfiguration]
    simp only [loadLines, processLine_min10, processLine_max5]
    norm_num [DEFAULT_MIN_DELAY_S, DEFAULT_MAX_DELAY_S]

/-- C9: rejection of configuration values is strictly per-key: a line
whose value is rejected leaves the configuration unchanged (first
conjunct, for every line that produces a warning), and in a file whose
`min_delay` is out of range (9999) or unparseable (abc) the default
min_delay 2 is retained with a warning for line 1 while the valid
`max_delay = 5` on the other line still takes effect. -/
theorem c9_per_key_rejection :
    (∀ (cfg : Config) (n : ℕ) (line : List Char),
      (processLine cfg n line).2 ≠ [] → (processLine cfg n line).1 = cfg) ∧
    LoadConfiguration (some ["min_delay = 9999".toList, "max_delay = 5".toList])
      = (⟨2, 5⟩, [.invalidMin 1]) ∧
    LoadConfiguration (some ["min_delay = abc".toList, "max_delay = 5".toList])
      = (⟨2, 5⟩, [.invalidMin 1]) := by
  refine ⟨?_, ?_, ?_⟩
  · exact fun cfg n line hw => (processLine_retain_or_silent cfg n line).resolve_right hw
  · rw [LoadConfiguration]
    simp only [loadLines, processLine_min9999, processLine_max5]
    norm_num [DEFAULT_MIN_DELAY_S, DEFAULT_MAX_DELAY_S]
  · rw [LoadConfiguration]
    simp only [loadLines, processLine_minAbc, processLine_max5]
    norm_num [DEFAULT_MIN_DELAY_S, DEFAULT_MAX_DELAY_S]

/-- Witness for the universal conjunct of the C9 theorem: the rejected
line `min_delay = 9999` leaves the configuration (2, 7) unchanged. -/
theorem c9_per_key_rejection_witness :
    (processLine ⟨2, 7⟩ 1 ("min_delay = 9999".toList)).1 = ⟨2, 7⟩ :=
  c9_per_key_rejection.1 ⟨2, 7⟩ 1 _ (by rw [processLine_min9999]; exact fun h => nomatch h)

end Refresher
